import Mathlib

/- A shallow embedding of src/app.py: the request-handling pipeline of the
SFAgent service (input validation, domain normalization, page location,
scraping, summarization, LLM-response parsing and the request handler),
with every external collaborator (HTTP fetches, the search provider, the
LLM completion API) represented by an explicit outcome parameter. -/

namespace SFAgent

/-- Whitespace as matched by Python's regex class \s and str.strip (ASCII range). -/
def isPySpace (c : Char) : Bool :=
  c == ' ' || c == '\t' || c == '\n' || c == '\r' || c == Char.ofNat 11 || c == Char.ofNat 12

/-- Python str.strip(): drop whitespace from both ends. -/
def pyStrip (s : List Char) : List Char :=
  ((s.dropWhile isPySpace).reverse.dropWhile isPySpace).reverse

/-- String-level wrapper of pyStrip. -/
def pyStripS (s : String) : String :=
  (pyStrip s.toList).asString

/-- Python str.startswith on character lists. -/
def pyStartsWith : List Char → List Char → Bool
  | [], _ => true
  | _ :: _, [] => false
  | p :: ps, c :: cs => p == c && pyStartsWith ps cs

/-- Fuel-indexed helper for pyReplace; the fuel bounds the scan length. -/
def pyReplaceAux (pat repl : List Char) : Nat → List Char → List Char
  | 0, s => s
  | _ + 1, [] => []
  | fuel + 1, c :: t =>
    if pyStartsWith pat (c :: t) then repl ++ pyReplaceAux pat repl fuel ((c :: t).drop pat.length)
    else c :: pyReplaceAux pat repl fuel t

/-- Python str.replace: replace every non-overlapping occurrence, left to right. -/
def pyReplace (pat repl : List Char) (s : List Char) : List Char :=
  pyReplaceAux pat repl s.length s

/-- The domain computation of normalize_domain (app.py line 34): strip every
"https://" occurrence, then every "http://" occurrence, then keep the part
before the first slash. -/
def domain_of (ws2 : List Char) : List Char :=
  (pyReplace "http://".toList [] (pyReplace "https://".toList [] ws2)).takeWhile
    (fun c => !(c == '/'))

/-- Character-level body of normalize_domain (app.py lines 31 to 35): prepend
"https://" when the string does not start with "http"; the domain is the
scheme-stripped string up to the first slash. -/
def normalize_domain_chars (ws : List Char) : List Char × List Char :=
  let ws2 := if pyStartsWith "http".toList ws then ws else "https://".toList ++ ws
  (ws2, domain_of ws2)

/-- normalize_domain (app.py lines 31 to 35). Returns the pair of the
normalized website and the bare domain. -/
def normalize_domain (website : String) : String × String :=
  let p := normalize_domain_chars website.toList
  (p.1.asString, p.2.asString)

/-- fallback_urls (app.py lines 37 to 53): the fixed list of 14 guessed URLs
(the who-we-serve suffix appears twice, as in the source). -/
def fallback_urls (domain : String) : List String :=
  [ "https://" ++ domain ++ "/about",
    "https://" ++ domain ++ "/team",
    "https://" ++ domain ++ "/leadership",
    "https://" ++ domain ++ "/who-we-are",
    "https://" ++ domain ++ "/who-we-serve",
    "https://" ++ domain ++ "/services",
    "https://" ++ domain ++ "/contact-us",
    "https://" ++ domain ++ "/who-we-serve",
    "https://" ++ domain ++ "/fees",
    "https://" ++ domain ++ "/investment-philosophy",
    "https://" ++ domain ++ "/investment-strategy",
    "https://" ++ domain ++ "/investment-approach",
    "https://" ++ domain ++ "/about/team",
    "https://" ++ domain ++ "/our-story" ]

/-- smart_scrape (app.py lines 55 to 76), as a function of the try-block
outcome. The HTTP fetch and the HTML extraction (lines 58 to 70) are external
collaborators: an outcome of .ok parts is the list of extracted text fragments
(paragraphs, headings, list items, pipe-joined table rows, e-mail matches),
and .error is any exception raised inside the try block. The repository logic
kept here: fragments are newline-joined and truncated to 5000 characters; on
failure the except branch returns the empty string, never propagating. -/
def smart_scrape (outcome : Except Unit (List String)) : String :=
  match outcome with
  | .error _ => ""
  | .ok parts => ((List.intercalate ['\n'] (parts.map String.toList)).take 5000).asString

/-- State of the functools.lru_cache wrapper on smart_scrape: entries listed
most-recently-used first, plus a count of underlying invocations. -/
structure ScrapeCache where
  entries : List (String × String)
  fetches : Nat
deriving DecidableEq

/-- Modelled from the documented semantics of functools.lru_cache with
maxsize 100, applied to smart_scrape at app.py line 55: a hit returns the
stored value and moves the entry to the most-recent position without invoking
the wrapped function; a miss invokes smart_scrape once, stores its value at
the most-recent position, and evicts entries beyond 100. -/
def cached_smart_scrape (outcome : String → Except Unit (List String))
    (st : ScrapeCache) (url : String) : String × ScrapeCache :=
  match st.entries.find? (fun e => e.1 == url) with
  | some e => (e.2, ⟨(url, e.2) :: st.entries.eraseP (fun p => p.1 == url), st.fetches⟩)
  | none =>
    let v := smart_scrape (outcome url)
    (v, ⟨((url, v) :: st.entries).take 100, st.fetches + 1⟩)

/-- search_company_pages (app.py lines 78 to 86). The GoogleSearch call is the
external search provider; providerOutcome is either the raised exception's
message or the list of organic-result links. Kept repository logic: an
exception propagates (there is no local catch) and at most the first five
links are returned. -/
def search_company_pages (company_name domain : String)
    (providerOutcome : Except String (List String)) : Except String (List String) :=
  match providerOutcome with
  | .error e => .error e
  | .ok links => .ok (links.take 5)

/-- summarize_with_gpt (app.py lines 88 to 134). The prompt construction
(lines 89 to 120) only feeds the external completion call, whose result is
llmOutcome: .ok content is the reply text, .error e the exception message.
Kept repository logic: on success the reply is stripped; on failure the
exception is caught and the string "Error from OpenAI: " followed by the
message is returned in place of the summary. -/
def summarize_with_gpt (company_name combined_text : String) (firm_crd : Option String)
    (llmOutcome : Except String String) : String :=
  match llmOutcome with
  | .ok content => pyStripS content
  | .error e => "Error from OpenAI: " ++ e

/-- Case-insensitive prefix test; the pattern is given lowercase. -/
def isCIPrefixOf : List Char → List Char → Bool
  | [], _ => true
  | _ :: _, [] => false
  | p :: ps, c :: cs => p == c.toLower && isCIPrefixOf ps cs

/-- Index of the first case-insensitive occurrence of pat in s. -/
def firstIndexOfCI (pat : List Char) : List Char → Option Nat
  | [] => if isCIPrefixOf pat [] then some 0 else none
  | c :: t => if isCIPrefixOf pat (c :: t) then some 0 else (firstIndexOfCI pat t).map (· + 1)

/-- Completion of a section match directly after a label occurrence, with
Python regex semantics for a greedy whitespace run followed by a lazy
dot-all group ended by a terminator: the whitespace run is consumed first
and the group reaches the first terminator occurrence after it; when every
terminator occurrence lies inside the whitespace run, backtracking of the
whitespace run makes the group empty; with no terminator occurrence at all
the completion fails. -/
def matchLazyAfter (term rest : List Char) : Option (List Char) :=
  let w := (rest.takeWhile isPySpace).length
  match firstIndexOfCI term (rest.drop w) with
  | some t => some ((rest.drop w).take t)
  | none =>
    match firstIndexOfCI term rest with
    | some _ => some []
    | none => none

/-- re.search for a pattern of the form label, whitespace run, lazy dot-all
group, terminator, with DOTALL and IGNORECASE (label and terminator given
lowercase): the leftmost label occurrence whose section completes wins. -/
def reSearchLazy (label term : List Char) : List Char → Option (List Char)
  | [] => none
  | c :: t =>
    if isCIPrefixOf label (c :: t) then
      match matchLazyAfter term ((c :: t).drop label.length) with
      | some g => some g
      | none => reSearchLazy label term t
    else reSearchLazy label term t

/-- re.search for a pattern of the form label, whitespace run, greedy dot-all
group to the end, with DOTALL and IGNORECASE: at the leftmost label
occurrence the group is everything after the whitespace run. -/
def reSearchGreedyToEnd (label : List Char) : List Char → Option (List Char)
  | [] => none
  | c :: t =>
    if isCIPrefixOf label (c :: t) then
      some (((c :: t).drop label.length).dropWhile isPySpace)
    else reSearchGreedyToEnd label t

/-- parse_gpt_response (app.py lines 136 to 152): the three re.search calls
with DOTALL and IGNORECASE; goals and outlook default to the empty string
when their pattern finds no match, while summary defaults to the whole
stripped reply. -/
def parse_gpt_response (gpt_text : String) : String × String × String :=
  let s := gpt_text.toList
  let goals_match := reSearchLazy "goals:".toList "\noutlook:".toList s
  let outlook_match := reSearchLazy "outlook:".toList "\nsummary:".toList s
  let summary_match := reSearchGreedyToEnd "summary:".toList s
  ((goals_match.map pyStrip |>.getD []).asString,
   (outlook_match.map pyStrip |>.getD []).asString,
   ((summary_match.map pyStrip).getD (pyStrip s)).asString)

/-- The scheme characters accepted by urllib.parse: ASCII letters, digits,
plus, minus and dot. -/
def scheme_chars : List Char :=
  "abcdefghijklmnopqrstuvwxyzABCDEFGHIJKLMNOPQRSTUVWXYZ0123456789+-.".toList

/-- Membership in scheme_chars. -/
def isSchemeChar (c : Char) : Bool := scheme_chars.contains c

/-- Python str.find for the colon character. -/
def pyFindColon : List Char → Option Nat
  | [] => none
  | c :: t => if c == ':' then some 0 else (pyFindColon t).map (· + 1)

/-- The WHATWG C0-control-or-space set stripped from the front of a URL by
CPython urlsplit (code points 0 through 32). -/
def isC0ControlOrSpace (c : Char) : Bool := c.toNat ≤ 32

/-- Hexadecimal digit as accepted by ipaddress hextets and the IPvFuture
pattern. -/
def isHexDigitChar (c : Char) : Bool :=
  c.isDigit || ('a' ≤ c && c ≤ 'f') || ('A' ≤ c && c ≤ 'F')

/-- Python str.split on a single separator character: every occurrence
splits, empty pieces are kept, and the empty string splits to one empty
piece. -/
def pySplitOn (sep : Char) : List Char → List (List Char)
  | [] => [[]]
  | c :: t =>
    if c == sep then [] :: pySplitOn sep t
    else
      match pySplitOn sep t with
      | h :: rt => (c :: h) :: rt
      | [] => [[c]]

/-- Decimal value of a digit string. -/
def decimalValue (l : List Char) : Nat :=
  l.foldl (fun a c => a * 10 + (c.toNat - 48)) 0

/-- One dotted-quad octet as validated by ipaddress IPv4Address: nonempty,
ASCII digits only, at most three characters, no leading zero except the
single digit zero, and value at most 255. -/
def validOctet (octet : List Char) : Bool :=
  !octet.isEmpty && octet.all Char.isDigit && decide (octet.length ≤ 3) &&
    (octet == ['0'] || !(octet.headD '0' == '0')) && decide (decimalValue octet ≤ 255)

/-- Validity of an IPv4 address string per ipaddress IPv4Address: exactly
four dot-separated valid octets. -/
def isValidIPv4 (s : List Char) : Bool :=
  let octets := pySplitOn '.' s
  octets.length == 4 && octets.all validOctet

/-- One hextet as validated by ipaddress IPv6Address: hexadecimal digits
only, at most four of them, and nonempty. -/
def validHextet (h : List Char) : Bool :=
  h.all isHexDigitChar && decide (h.length ≤ 4) && !h.isEmpty

/-- Validity of an IPv6 address string without a scope id, following
ipaddress IPv6Address: split on colons (at least three pieces), expand a
dotted IPv4 suffix into two hextets, at most nine pieces, at most one empty
piece strictly inside (the double colon), an empty end piece only next to
the double colon, at least one skipped hextet when a double colon is
present and exactly eight pieces otherwise, and every non-skipped piece a
valid hextet. -/
def isValidIPv6NoScope (s : List Char) : Bool :=
  if s.isEmpty then false
  else
    let parts0 := pySplitOn ':' s
    if parts0.length < 3 then false
    else
      match
        (if (parts0.getLastD []).contains '.' then
          (if isValidIPv4 (parts0.getLastD []) then some (parts0.dropLast ++ [['0'], ['0']])
           else none)
         else some parts0) with
      | none => false
      | some parts =>
        if parts.length > 9 then false
        else
          let inner := (parts.drop 1).dropLast
          let empties := (inner.filter (fun p => p.isEmpty)).length
          if empties ≥ 2 then false
          else if empties == 1 then
            let skip_index := (inner.findIdx (fun p => p.isEmpty)) + 1
            let parts_hi := if (parts.headD [' ']).isEmpty then skip_index - 1 else skip_index
            let parts_lo0 := parts.length - skip_index - 1
            let parts_lo := if (parts.getLastD [' ']).isEmpty then parts_lo0 - 1 else parts_lo0
            if (parts.headD [' ']).isEmpty && parts_hi ≠ 0 then false
            else if (parts.getLastD [' ']).isEmpty && parts_lo ≠ 0 then false
            else if 8 - (parts_hi + parts_lo) < 1 then false
            else (parts.take parts_hi).all validHextet &&
              (parts.drop (parts.length - parts_lo)).all validHextet
          else
            parts.length == 8 && !(parts.headD [' ']).isEmpty &&
              !(parts.getLastD [' ']).isEmpty && parts.all validHextet

/-- Validity of an IPv6 address string with an optional percent scope id,
following ipaddress: when a percent sign is present the scope id after the
first percent must be nonempty and percent-free, and the address before it
a valid scopeless IPv6 address. -/
def isValidIPv6 (s : List Char) : Bool :=
  let addr := s.takeWhile (fun c => !(c == '%'))
  if addr.length == s.length then isValidIPv6NoScope s
  else
    let scope := s.drop (addr.length + 1)
    !scope.isEmpty && !scope.contains '%' && isValidIPv6NoScope addr

/-- The IPvFuture shape accepted by urllib's bracketed-host check: a
lowercase v, one or more hexadecimal digits, a dot, then at least one more
character none of which is a line feed (the regex dot). -/
def isValidIPvFuture (h : List Char) : Bool :=
  match h with
  | 'v' :: rest =>
    let hx := rest.takeWhile isHexDigitChar
    !hx.isEmpty &&
      (match rest.drop hx.length with
       | '.' :: tail => !tail.isEmpty && tail.all (fun c => !(c == '\n'))
       | _ => false)
  | _ => false

/-- The bracketed-host acceptance of CPython urlsplit: a host starting with
v must fit the IPvFuture shape; any other host must be a valid IPv6 address
(an IPv4 address in brackets is rejected, as is anything that is neither). -/
def bracketedHostOk (hostname : List Char) : Bool :=
  if hostname.headD ' ' == 'v' then isValidIPvFuture hostname
  else if isValidIPv4 hostname then false
  else isValidIPv6 hostname

/-- The bracketed host of a netloc: the characters after the first opening
bracket and before the next closing bracket, as computed by the two
str.partition calls in urlsplit. -/
def bracketedOf (netloc : List Char) : List Char :=
  (netloc.drop ((netloc.takeWhile (fun c => !(c == '['))).length + 1)).takeWhile
    (fun c => !(c == ']'))

/-- The scheme and netloc components of urllib.parse.urlparse, following
CPython 3.11 urlsplit (verified against this interpreter): leading WHATWG
C0-control-or-space characters are stripped, then tab, carriage return and
line feed are removed; a scheme needs a colon at a position above zero,
preceded by an ASCII letter followed by scheme characters, and is
lowercased; a netloc follows a double slash and runs to the first slash,
question mark or hash. A ValueError becomes an error value: unbalanced
square brackets in the netloc, or a bracketed host that is neither a valid
IPv6 address nor an IPvFuture literal. Query, fragment and path splitting
are dropped because validate_inputs consults only scheme and netloc, and
the NFKC netloc check, a no-op for ASCII netlocs, is not modelled: the
model is exact on ASCII inputs. -/
def urlparse_scheme_netloc (url : String) : Except String (String × String) :=
  let u1 := url.toList.dropWhile isC0ControlOrSpace
  let u := u1.filter (fun c => !(c == '\t' || c == '\r' || c == '\n'))
  let sp :=
    match pyFindColon u with
    | some i =>
      if 0 < i && (u.take 1).all Char.isAlpha && ((u.take i).drop 1).all isSchemeChar then
        ((u.take i).map Char.toLower, u.drop (i + 1))
      else ([], u)
    | none => ([], u)
  if pyStartsWith ['/', '/'] sp.2 then
    let netloc := (sp.2.drop 2).takeWhile (fun c => !(c == '/' || c == '?' || c == '#'))
    let hasL := netloc.contains '['
    let hasR := netloc.contains ']'
    if (hasL && !hasR) || (hasR && !hasL) then .error "Invalid IPv6 URL"
    else if hasL && hasR then
      if bracketedHostOk (bracketedOf netloc) then .ok (sp.1.asString, netloc.asString)
      else .error "invalid bracketed host"
    else .ok (sp.1.asString, netloc.asString)
  else .ok (sp.1.asString, ([] : List Char).asString)

/-- validate_inputs (app.py lines 154 to 163): reject company names over 200
characters; then a ValueError from urlparse is caught and rejected with
"Invalid website format" (the except branch at lines 161 to 162), and a
successful parse with an empty scheme or an empty netloc is rejected with
"Invalid website URL". -/
def validate_inputs (company_name website : String) : Bool × Option String :=
  if company_name.length > 200 then (false, some "Company name too long")
  else
    match urlparse_scheme_netloc website with
    | .error _ => (false, some "Invalid website format")
    | .ok r =>
      if r.1 = "" ∨ r.2 = "" then (false, some "Invalid website URL")
      else (true, none)

/-- The JSON body of a /run request (app.py lines 169 to 174): data.get for
each key, with a missing key giving none. -/
structure AgentRequest where
  companyName : Option String
  website : Option String
  firmCRD : Option String
deriving DecidableEq

/-- Outcomes of the three external collaborators consulted while one /run
request is handled: the search provider call, the per-URL fetch-and-extract
try block of smart_scrape, and the LLM completion call. -/
structure Externals where
  search : Except String (List String)
  scrape : String → Except Unit (List String)
  llm : Except String String

/-- The success payload of run_agent (app.py lines 211 to 219). -/
structure AgentResult where
  companyName : String
  website : String
  firmCRD : Option String
  urlsUsed : List String
  goals : String
  outlook : String
  summary : String
deriving DecidableEq

/-- An HTTP response of run_agent: either an error JSON body with an explicit
status, or the 200 result payload. -/
inductive AgentResponse where
  | json (status : Nat) (error : String)
  | result (r : AgentResult)
deriving DecidableEq

/-- HTTP status of a response; a result payload is returned with 200. -/
def respStatus : AgentResponse → Nat
  | .json s _ => s
  | .result _ => 200

/-- The urlsUsed field of a response; error bodies carry none. -/
def respUrlsUsed : AgentResponse → List String
  | .json _ _ => []
  | .result r => r.urlsUsed

/-- run_agent (app.py lines 165 to 229): the /run handler. Missing or falsy
companyName or website gives 400; a validation failure gives 400 with its
reason; the website is then normalized, the search provider consulted (an
exception there reaches the outer except and gives 500), empty search
results fall back to fallback_urls, each URL is scraped and concatenated
with newlines, an all-whitespace concatenation is replaced by a placeholder,
the summarizer output is parsed, and the result payload is returned with
200. The request.get_json call and rate limiting are the hosting framework's
concern and sit outside this model. -/
def run_agent (req : AgentRequest) (ext : Externals) : AgentResponse :=
  match req.companyName, req.website with
  | none, _ => .json 400 "Missing companyName or website"
  | _, none => .json 400 "Missing companyName or website"
  | some company, some website =>
    if company = "" ∨ website = "" then .json 400 "Missing companyName or website"
    else
      let v := validate_inputs company website
      if v.1 = false then .json 400 (v.2.getD "")
      else
        let nd := normalize_domain website
        match search_company_pages company nd.2 ext.search with
        | .error e => .json 500 e
        | .ok searchUrls =>
          let urls := if searchUrls = [] then fallback_urls nd.2 else searchUrls
          let combined_text := urls.foldl (fun acc u => acc ++ smart_scrape (ext.scrape u) ++ "\n") ""
          let combined_text :=
            if pyStripS combined_text = "" then
              "No meaningful content was scraped from the provided URLs."
            else combined_text
          let summary_text := summarize_with_gpt company combined_text req.firmCRD ext.llm
          let p := parse_gpt_response summary_text
          .result
            { companyName := company, website := nd.1, firmCRD := req.firmCRD,
              urlsUsed := urls, goals := p.1, outlook := p.2.1, summary := p.2.2 }

/- Helper lemmas. -/

lemma length_asString (l : List Char) : (List.asString l).length = l.length := rfl

lemma toList_asString (l : List Char) : (List.asString l).toList = l := rfl

lemma firstIndexOfCI_cons_none {pat : List Char} {c : Char} {t : List Char}
    (h : firstIndexOfCI pat (c :: t) = none) :
    isCIPrefixOf pat (c :: t) = false ∧ firstIndexOfCI pat t = none := by
  by_cases hpre : isCIPrefixOf pat (c :: t) = true
  · simp [firstIndexOfCI, hpre] at h
  · rw [Bool.not_eq_true] at hpre
    simp [firstIndexOfCI, hpre, Option.map_eq_none'] at h
    exact ⟨hpre, h⟩

lemma firstIndexOfCI_drop_none {pat : List Char} :
    ∀ (s : List Char) (k : Nat), firstIndexOfCI pat s = none →
      firstIndexOfCI pat (s.drop k) = none
  | _, 0, h => by simpa using h
  | [], _ + 1, h => by simpa using h
  | _ :: t, k + 1, h => by
    simpa using firstIndexOfCI_drop_none t k (firstIndexOfCI_cons_none h).2

lemma matchLazyAfter_none {term rest : List Char}
    (h : firstIndexOfCI term rest = none) : matchLazyAfter term rest = none := by
  simp [matchLazyAfter, h,
    firstIndexOfCI_drop_none rest ((rest.takeWhile isPySpace).length) h]

lemma reSearchLazy_none_of_term {label term : List Char} :
    ∀ s : List Char, firstIndexOfCI term s = none → reSearchLazy label term s = none
  | [], _ => rfl
  | c :: t, h => by
    have ih := @reSearchLazy_none_of_term label term t (firstIndexOfCI_cons_none h).2
    have hdrop : firstIndexOfCI term ((c :: t).drop label.length) = none :=
      firstIndexOfCI_drop_none _ _ h
    simp only [reSearchLazy, matchLazyAfter_none hdrop, ih]
    split <;> rfl

lemma reSearchLazy_none_of_label {label term : List Char} :
    ∀ s : List Char, firstIndexOfCI label s = none → reSearchLazy label term s = none
  | [], _ => rfl
  | c :: t, h => by
    obtain ⟨hpre, h2⟩ := firstIndexOfCI_cons_none h
    simp [reSearchLazy, hpre, reSearchLazy_none_of_label t h2]

lemma reSearchGreedyToEnd_none_of_label {label : List Char} :
    ∀ s : List Char, firstIndexOfCI label s = none → reSearchGreedyToEnd label s = none
  | [], _ => rfl
  | c :: t, h => by
    obtain ⟨hpre, h2⟩ := firstIndexOfCI_cons_none h
    simp [reSearchGreedyToEnd, hpre, reSearchGreedyToEnd_none_of_label t h2]

lemma asString_nil : List.asString ([] : List Char) = "" := rfl

lemma parse_goals_default {s : String}
    (h : firstIndexOfCI "goals:".toList s.toList = none) :
    (parse_gpt_response s).1 = "" := by
  have hr : reSearchLazy "goals:".toList "\noutlook:".toList s.toList = none :=
    reSearchLazy_none_of_label _ h
  simp only [parse_gpt_response]
  rw [hr]
  rfl

lemma parse_outlook_default_label {s : String}
    (h : firstIndexOfCI "outlook:".toList s.toList = none) :
    (parse_gpt_response s).2.1 = "" := by
  have hr : reSearchLazy "outlook:".toList "\nsummary:".toList s.toList = none :=
    reSearchLazy_none_of_label _ h
  simp only [parse_gpt_response]
  rw [hr]
  rfl

lemma parse_outlook_default_term {s : String}
    (h : firstIndexOfCI "\nsummary:".toList s.toList = none) :
    (parse_gpt_response s).2.1 = "" := by
  have hr : reSearchLazy "outlook:".toList "\nsummary:".toList s.toList = none :=
    reSearchLazy_none_of_term _ h
  simp only [parse_gpt_response]
  rw [hr]
  rfl

lemma parse_summary_default {s : String}
    (h : firstIndexOfCI "summary:".toList s.toList = none) :
    (parse_gpt_response s).2.2 = pyStripS s := by
  have hr : reSearchGreedyToEnd "summary:".toList s.toList = none :=
    reSearchGreedyToEnd_none_of_label _ h
  simp only [parse_gpt_response]
  rw [hr]
  rfl

lemma parse_goals_default_term {s : String}
    (h : firstIndexOfCI "\noutlook:".toList s.toList = none) :
    (parse_gpt_response s).1 = "" := by
  have hr : reSearchLazy "goals:".toList "\noutlook:".toList s.toList = none :=
    reSearchLazy_none_of_term _ h
  simp only [parse_gpt_response]
  rw [hr]
  rfl

lemma pyStartsWith_http_https (w : List Char) :
    pyStartsWith "http".toList ("https://".toList ++ w) = true := rfl

lemma normalize_domain_chars_fst_http (ws : List Char) :
    pyStartsWith "http".toList (normalize_domain_chars ws).1 = true := by
  show pyStartsWith "http".toList
      (if pyStartsWith "http".toList ws then ws else "https://".toList ++ ws) = true
  by_cases h : pyStartsWith "http".toList ws = true
  · rw [if_pos h]; exact h
  · rw [if_neg h]; exact pyStartsWith_http_https ws

lemma normalize_domain_chars_of_http {l : List Char}
    (h : pyStartsWith "http".toList l = true) :
    normalize_domain_chars l = (l, domain_of l) := by
  unfold normalize_domain_chars
  rw [if_pos h]

lemma normalize_domain_chars_idem (ws : List Char) :
    normalize_domain_chars (normalize_domain_chars ws).1 = normalize_domain_chars ws := by
  have heta : normalize_domain_chars ws =
      ((normalize_domain_chars ws).1, domain_of (normalize_domain_chars ws).1) := rfl
  rw [normalize_domain_chars_of_http (normalize_domain_chars_fst_http ws), ← heta]

lemma all_filter {p q : Char → Bool} (l : List Char) (h : l.all p = true) :
    (l.filter q).all p = true := by
  rw [List.all_eq_true] at *
  intro x hx
  exact h x (List.mem_filter.mp hx).1

lemma pyFindColon_none : ∀ l : List Char, l.all (fun c => !(c == ':')) = true →
    pyFindColon l = none
  | [], _ => rfl
  | c :: t, h => by
    rw [List.all_cons, Bool.and_eq_true] at h
    have hc : (c == ':') = false := by simpa using h.1
    simp [pyFindColon, hc, pyFindColon_none t h.2]

lemma all_dropWhile {p q : Char → Bool} (l : List Char) (h : l.all p = true) :
    (l.dropWhile q).all p = true := by
  rw [List.all_eq_true] at *
  intro x hx
  exact h x (List.dropWhile_sublist q |>.mem hx)

lemma urlparse_scheme_empty_of_no_colon (w : String)
    (h : w.toList.all (fun c => !(c == ':')) = true) :
    ∀ s n : String, urlparse_scheme_netloc w = .ok (s, n) → s = "" := by
  have hc : pyFindColon ((w.toList.dropWhile isC0ControlOrSpace).filter
      (fun c => !(c == '\t' || c == '\r' || c == '\n'))) = none :=
    pyFindColon_none _ (all_filter _ (all_dropWhile _ h))
  intro s n hok
  simp only [urlparse_scheme_netloc] at hok
  rw [hc] at hok
  split at hok
  · split at hok
    · exact absurd hok (by simp)
    · split at hok
      · split at hok
        · obtain ⟨h1, -⟩ := Prod.mk.injEq .. ▸ (Except.ok.inj hok)
          exact h1.symm
        · exact absurd hok (by simp)
      · obtain ⟨h1, -⟩ := Prod.mk.injEq .. ▸ (Except.ok.inj hok)
        exact h1.symm
  · obtain ⟨h1, -⟩ := Prod.mk.injEq .. ▸ (Except.ok.inj hok)
    exact h1.symm

lemma cached_smart_scrape_hit_head (outcome : String → Except Unit (List String))
    (url v : String) (rest : List (String × String)) (n : Nat) :
    cached_smart_scrape outcome ⟨(url, v) :: rest, n⟩ url = (v, ⟨(url, v) :: rest, n⟩) := by
  have hp : ((fun e : String × String => e.1 == url) (url, v)) = true := by simp
  simp [cached_smart_scrape, List.find?_cons_of_pos _ hp, List.eraseP_cons_of_pos hp]

lemma cached_smart_scrape_miss (outcome : String → Except Unit (List String))
    (st : ScrapeCache) (url : String)
    (h : st.entries.find? (fun e => e.1 == url) = none) :
    cached_smart_scrape outcome st url =
      (smart_scrape (outcome url),
       ⟨((url, smart_scrape (outcome url)) :: st.entries).take 100, st.fetches + 1⟩) := by
  simp [cached_smart_scrape, h]

lemma run_agent_search_error (company website : String) (crd : Option String)
    (scrape : String → Except Unit (List String)) (llm : Except String String) (e : String)
    (h1 : company ≠ "") (h2 : website ≠ "")
    (hv : validate_inputs company website = (true, none)) :
    run_agent ⟨some company, some website, crd⟩ ⟨.error e, scrape, llm⟩ = .json 500 e := by
  simp [run_agent, h1, h2, hv, search_company_pages]

lemma respStatus_run_agent_search_ok (company website : String) (crd : Option String)
    (links : List String) (scrape : String → Except Unit (List String))
    (llm : Except String String)
    (h1 : company ≠ "") (h2 : website ≠ "")
    (hv : validate_inputs company website = (true, none)) :
    respStatus (run_agent ⟨some company, some website, crd⟩ ⟨.ok links, scrape, llm⟩) = 200 := by
  simp [run_agent, h1, h2, hv, search_company_pages, respStatus]

lemma respUrlsUsed_run_agent_search_ok (company website : String) (crd : Option String)
    (links : List String) (scrape : String → Except Unit (List String))
    (llm : Except String String)
    (h1 : company ≠ "") (h2 : website ≠ "")
    (hv : validate_inputs company website = (true, none)) :
    respUrlsUsed (run_agent ⟨some company, some website, crd⟩ ⟨.ok links, scrape, llm⟩) =
      if links.take 5 = [] then fallback_urls (normalize_domain website).2
      else links.take 5 := by
  simp [run_agent, h1, h2, hv, search_company_pages, respUrlsUsed]

/- Claim theorems. -/

/-- C1 (amended): for every LLM reply string that contains the literal field
label without a recognizable following delimiter, or lacks the label
entirely, parse_gpt_response returns the empty string for the outlook field
and, being a total function, never throws; in particular a reply with no
Outlook label yields an empty outlook. (The claim's sentinel "Not Found"
does not occur in the delimited-text parser; see the counterexample.) -/
theorem c1_missing_outlook_label_yields_empty :
    (∀ s : String, firstIndexOfCI "outlook:".toList s.toList = none →
      (parse_gpt_response s).2.1 = "") ∧
    (∀ s : String, firstIndexOfCI "\nsummary:".toList s.toList = none →
      (parse_gpt_response s).2.1 = "") ∧
    (parse_gpt_response "The reply has no structured fields.").2.1 = "" := by
  refine ⟨fun s h => parse_outlook_default_label h,
    fun s h => parse_outlook_default_term h, ?_⟩
  decide

/-- C1 witness: the amended theorem applied at a concrete label-free reply. -/
theorem c1_witness :
    (parse_gpt_response "Goals: growth\nNothing else follows").2.1 = "" :=
  c1_missing_outlook_label_yields_empty.1 "Goals: growth\nNothing else follows" (by decide)

/-- C1 counterexample: a reply with no Outlook label yields outlook equal to
the empty string, not the sentinel "Not Found" the claim states. -/
theorem c1_counterexample :
    firstIndexOfCI "outlook:".toList "A narrative reply without labels".toList = none ∧
    (parse_gpt_response "A narrative reply without labels").2.1 ≠ "Not Found" := by
  decide

/-- C2 (amended): the validator examines the raw, un-normalized website
string; it rejects with "Company name too long" when companyName exceeds 200
characters, rejects with "Invalid website format" when urlparse raises (for
example on the unbalanced-bracket website "http://[x"), and otherwise
rejects with "Invalid website URL" exactly when the parse yields an empty
scheme or an empty netloc; consequently every colon-free website string such
as "example.com" is rejected even though its normalization would parse. The
acceptance characterization is stated for ASCII website strings, where the
embedded urlparse is exact (the NFKC netloc check it omits is a no-op on
ASCII). -/
theorem c2_validator_checks_raw_website :
    ∀ company website : String,
      (website.toList.all (fun c => decide (c.toNat ≤ 127)) = true →
        ((validate_inputs company website).1 = true ↔
          company.length ≤ 200 ∧ ∃ s n : String,
            urlparse_scheme_netloc website = .ok (s, n) ∧ s ≠ "" ∧ n ≠ "")) ∧
      (company.length > 200 →
        validate_inputs company website = (false, some "Company name too long")) ∧
      (company.length ≤ 200 → website.toList.all (fun c => !(c == ':')) = true →
        (validate_inputs company website).1 = false) ∧
      validate_inputs "Acme" "http://[x" = (false, some "Invalid website format") := by
  intro company website
  refine ⟨fun _ => ?_, ?_, ?_, by decide⟩
  · by_cases hlen : company.length > 200
    · have hle : ¬ company.length ≤ 200 := by omega
      simp [validate_inputs, hlen, hle]
    · have hle : company.length ≤ 200 := by omega
      cases hres : urlparse_scheme_netloc website with
      | error e => simp [validate_inputs, hlen, hres]
      | ok r =>
        obtain ⟨s0, n0⟩ := r
        by_cases hr : s0 = "" ∨ n0 = ""
        · simp only [validate_inputs, hlen, if_false, hres, if_pos hr]
          constructor
          · intro hfalse
            exact absurd hfalse (by simp)
          · rintro ⟨-, s, n, heq, hs, hn⟩
            obtain ⟨hs0, hn0⟩ := Prod.mk.injEq .. ▸ (Except.ok.inj heq)
            rcases hr with h0 | h0
            · exact absurd (hs0 ▸ h0) hs
            · exact absurd (hn0 ▸ h0) hn
        · have hneq := hr
          push_neg at hneq
          simp only [validate_inputs, hlen, if_false, hres, if_neg hr]
          constructor
          · intro _
            exact ⟨hle, s0, n0, rfl, hneq.1, hneq.2⟩
          · intro _
            trivial
  · intro hlen
    simp only [validate_inputs]
    rw [if_pos hlen]
  · intro hlen hcol
    simp only [validate_inputs]
    rw [if_neg (by omega : ¬ company.length > 200)]
    cases hres : urlparse_scheme_netloc website with
    | error e => rfl
    | ok r =>
      have hs : r.1 = "" :=
        urlparse_scheme_empty_of_no_colon website hcol r.1 r.2 (by rw [hres])
      simp [hs]

/-- C2 witness: the amended theorem applied at the concrete pair, concluding
that the scheme-less "example.com" is rejected. -/
theorem c2_witness :
    (validate_inputs "Acme" "example.com").1 = false :=
  (c2_validator_checks_raw_website "Acme" "example.com").2.2.1 (by decide) (by decide)

/-- C2 counterexample: a request with a 4-character companyName and the
website "example.com" is rejected by the validator even though the
normalized website parses into a URL with scheme https and host example.com,
contradicting the claim that such a pair is accepted. -/
theorem c2_counterexample :
    validate_inputs "Acme" "example.com" = (false, some "Invalid website URL") ∧
    urlparse_scheme_netloc (normalize_domain "example.com").1 =
      .ok ("https", "example.com") ∧
    "Acme".length ≤ 200 :=
  ⟨by decide, by rfl, by decide⟩

/-- C3 (amended): under the delimited-text strategy the goals and outlook
fields default to the empty string when their delimiter pair is absent,
while the summary field defaults to the entire stripped reply when the
Summary label is absent; matching is non-greedy, case-insensitive and
dot-all, as the concrete conjunct exhibits (a case-mixed multi-line reply
whose goals section stops at the first Outlook delimiter). -/
theorem c3_delimited_parsing_defaults :
    (∀ s : String, firstIndexOfCI "goals:".toList s.toList = none →
      (parse_gpt_response s).1 = "") ∧
    (∀ s : String, firstIndexOfCI "\noutlook:".toList s.toList = none →
      (parse_gpt_response s).1 = "") ∧
    (∀ s : String, firstIndexOfCI "summary:".toList s.toList = none →
      (parse_gpt_response s).2.2 = pyStripS s) ∧
    parse_gpt_response "gOaLs: a\nmid\nOUTLOOK: b1\nb2\nSummary: s1\ns2\nOutlook: later" =
      ("a\nmid", "b1\nb2", "s1\ns2\nOutlook: later") := by
  refine ⟨fun s h => parse_goals_default h, fun s h => parse_goals_default_term h,
    fun s h => parse_summary_default h, by decide⟩

/-- C3 witness: the amended theorem applied at a concrete unstructured reply. -/
theorem c3_witness :
    (parse_gpt_response "A loose narrative answer").2.2 = pyStripS "A loose narrative answer" :=
  c3_delimited_parsing_defaults.2.2.1 "A loose narrative answer" (by decide)

/-- C3 counterexample: when the Summary delimiter is absent the summary field
is the whole stripped reply, not the empty string the claim states. -/
theorem c3_counterexample :
    firstIndexOfCI "summary:".toList "An unstructured reply".toList = none ∧
    (parse_gpt_response "An unstructured reply").2.2 ≠ "" := by
  decide

/-- C4: the page scraper never propagates an exception: any failure of the
fetch-and-parse try block returns the empty string, and on success the
returned text is truncated to at most 5000 characters. -/
theorem c4_scraper_total_and_truncated :
    smart_scrape (.error ()) = "" ∧
    ∀ parts : List String, (smart_scrape (.ok parts)).length ≤ 5000 := by
  refine ⟨rfl, fun parts => ?_⟩
  show ((List.intercalate ['\n'] (parts.map String.toList)).take 5000).asString.length ≤ 5000
  rw [length_asString]
  simp [List.length_take]

/-- C5: when the LLM completion call fails, summarize_with_gpt catches the
exception and returns an error string in place of the summary, and the
request still completes with a 200 response rather than a 500. -/
theorem c5_llm_failure_degrades_to_200 :
    ∀ (company website : String) (crd : Option String) (links : List String)
      (scrape : String → Except Unit (List String)) (e : String),
      company ≠ "" → website ≠ "" → validate_inputs company website = (true, none) →
      (∀ cn ct : String, ∀ fc : Option String,
        summarize_with_gpt cn ct fc (.error e) = "Error from OpenAI: " ++ e) ∧
      respStatus (run_agent ⟨some company, some website, crd⟩
        ⟨.ok links, scrape, .error e⟩) = 200 := by
  intro company website crd links scrape e h1 h2 hv
  exact ⟨fun _ _ _ => rfl,
    respStatus_run_agent_search_ok company website crd links scrape (.error e) h1 h2 hv⟩

/-- C5 witness: the theorem applied at a concrete valid request with a
failing completion call. -/
theorem c5_witness :
    respStatus (run_agent ⟨some "Acme", some "https://acme.com", none⟩
      ⟨.ok ["https://acme.com/about"], fun _ => .error (), .error "timeout"⟩) = 200 :=
  (c5_llm_failure_degrades_to_200 "Acme" "https://acme.com" none ["https://acme.com/about"]
    (fun _ => .error ()) "timeout" (by decide) (by decide) (by decide)).2

/-- C6: when the search call raises, the whole request fails with a 500 error
response carrying the exception message (there is no local catch), and the
fallback URL list is not used: the error response carries no URLs. -/
theorem c6_search_error_fails_request :
    ∀ (company website : String) (crd : Option String)
      (scrape : String → Except Unit (List String)) (llm : Except String String) (e : String),
      company ≠ "" → website ≠ "" → validate_inputs company website = (true, none) →
      run_agent ⟨some company, some website, crd⟩ ⟨.error e, scrape, llm⟩ = .json 500 e ∧
      respUrlsUsed (run_agent ⟨some company, some website, crd⟩ ⟨.error e, scrape, llm⟩) = [] := by
  intro company website crd scrape llm e h1 h2 hv
  have h := run_agent_search_error company website crd scrape llm e h1 h2 hv
  exact ⟨h, by rw [h]; rfl⟩

/-- C6 witness: the theorem applied at a concrete valid request whose search
call raises. -/
theorem c6_witness :
    run_agent ⟨some "Acme", some "https://acme.com", none⟩
      ⟨.error "SerpAPI failure", fun _ => .error (), .ok "reply"⟩ =
      .json 500 "SerpAPI failure" :=
  (c6_search_error_fails_request "Acme" "https://acme.com" none (fun _ => .error ())
    (.ok "reply") "SerpAPI failure" (by decide) (by decide) (by decide)).1

/-- C7: the fallback list is a deterministic fixed set of 14 URLs built by
appending hardcoded path suffixes to the domain; for acme.com it includes
https://acme.com/about; and whenever the search provider returns zero
results on a valid request, the candidate URLs of the response are exactly
that fallback list for the normalized domain. -/
theorem c7_fallback_urls_fixed :
    (∀ domain : String, (fallback_urls domain).length = 14) ∧
    "https://acme.com/about" ∈ fallback_urls "acme.com" ∧
    (∀ (company website : String) (crd : Option String)
       (scrape : String → Except Unit (List String)) (llm : Except String String),
      company ≠ "" → website ≠ "" → validate_inputs company website = (true, none) →
      respUrlsUsed (run_agent ⟨some company, some website, crd⟩ ⟨.ok [], scrape, llm⟩) =
        fallback_urls (normalize_domain website).2) := by
  refine ⟨fun domain => rfl, by decide, ?_⟩
  intro company website crd scrape llm h1 h2 hv
  have h := respUrlsUsed_run_agent_search_ok company website crd [] scrape llm h1 h2 hv
  simpa using h

/-- C7 witness: the theorem applied at a concrete valid request with empty
search results. -/
theorem c7_witness :
    respUrlsUsed (run_agent ⟨some "Acme", some "https://acme.com", none⟩
      ⟨.ok [], fun _ => .error (), .ok "reply"⟩) = fallback_urls "acme.com" := by
  have h := c7_fallback_urls_fixed.2.2 "Acme" "https://acme.com" none (fun _ => .error ())
    (.ok "reply") (by decide) (by decide) (by decide)
  rw [h]
  decide

/-- C8: calling the cached page scraper twice with the identical URL issues
at most one underlying fetch across the two calls, and the second call
returns text identical to the first. -/
theorem c8_cache_single_fetch :
    ∀ (outcome : String → Except Unit (List String)) (st : ScrapeCache) (url : String),
      (cached_smart_scrape outcome (cached_smart_scrape outcome st url).2 url).1 =
        (cached_smart_scrape outcome st url).1 ∧
      (cached_smart_scrape outcome (cached_smart_scrape outcome st url).2 url).2.fetches ≤
        st.fetches + 1 := by
  intro outcome st url
  cases hfind : st.entries.find? (fun e => e.1 == url) with
  | some e =>
    have hsome : cached_smart_scrape outcome st url =
        (e.2, ⟨(url, e.2) :: st.entries.eraseP (fun p => p.1 == url), st.fetches⟩) := by
      simp [cached_smart_scrape, hfind]
    rw [hsome, cached_smart_scrape_hit_head]
    exact ⟨rfl, Nat.le_succ _⟩
  | none =>
    rw [cached_smart_scrape_miss outcome st url hfind]
    have h100 : ((url, smart_scrape (outcome url)) :: st.entries).take 100 =
        (url, smart_scrape (outcome url)) :: st.entries.take 99 := rfl
    rw [h100, cached_smart_scrape_hit_head]
    exact ⟨rfl, Nat.le_refl _⟩

/-- C10: a failed scrape is memoized like a success: when the first call for
an uncached URL fails (the try-block outcome is an exception), it returns
the empty string, and a subsequent call for that URL returns the cached
empty string without invoking the underlying fetch again, even when the
fetch would now succeed. -/
theorem c10_failed_scrape_memoized :
    ∀ (outcome1 outcome2 : String → Except Unit (List String)) (st : ScrapeCache) (url : String),
      outcome1 url = .error () →
      st.entries.find? (fun e => e.1 == url) = none →
      (cached_smart_scrape outcome1 st url).1 = "" ∧
      (cached_smart_scrape outcome2 (cached_smart_scrape outcome1 st url).2 url).1 = "" ∧
      (cached_smart_scrape outcome2 (cached_smart_scrape outcome1 st url).2 url).2.fetches =
        (cached_smart_scrape outcome1 st url).2.fetches := by
  intro o1 o2 st url herr hfind
  have hval : smart_scrape (o1 url) = "" := by rw [herr]; rfl
  rw [cached_smart_scrape_miss o1 st url hfind, hval]
  have h100 : ((url, "") :: st.entries).take 100 = (url, "") :: st.entries.take 99 := rfl
  rw [h100, cached_smart_scrape_hit_head]
  exact ⟨rfl, rfl, rfl⟩

/-- C10 witness: the theorem applied at a concrete URL whose first fetch
fails and whose second fetch would succeed. -/
theorem c10_witness :
    (cached_smart_scrape (fun _ => .error ()) ⟨[], 0⟩ "https://acme.com/about").1 = "" ∧
    (cached_smart_scrape (fun _ => .ok ["Recovered text"])
      (cached_smart_scrape (fun _ => .error ()) ⟨[], 0⟩ "https://acme.com/about").2
      "https://acme.com/about").1 = "" := by
  have h := c10_failed_scrape_memoized (fun _ => .error ()) (fun _ => .ok ["Recovered text"])
    ⟨[], 0⟩ "https://acme.com/about" rfl rfl
  exact ⟨h.1, h.2.1⟩

/-- C9: domain normalization is idempotent: re-normalizing the website
component of its own output yields the same pair; normalizing
"https://example.com" yields that same string paired with "example.com",
and normalizing the scheme-less "example.com" yields the same pair. -/
theorem c9_normalize_domain_idempotent :
    normalize_domain "https://example.com" = ("https://example.com", "example.com") ∧
    normalize_domain "example.com" = ("https://example.com", "example.com") ∧
    ∀ w : String, normalize_domain (normalize_domain w).1 = normalize_domain w := by
  refine ⟨by decide, by decide, fun w => ?_⟩
  have hl : ((normalize_domain_chars w.toList).1.asString).toList =
      (normalize_domain_chars w.toList).1 := rfl
  simp only [normalize_domain]
  rw [hl, normalize_domain_chars_idem]

end SFAgent
